import Mathlib

/-!
Shallow embedding of `src/training_manager/interface.py` (class `TrainingManager`,
called "Notifier" in the specification), together with theorems settling the
spec claims about it.

Modelling conventions:
* A Python `dict` used as an ordered key/value store becomes a `List (String × String)`
  in insertion order, with `dictGet` / `dictSet` mirroring `dict.get` / `d[k] = v`.
* The Slack `WebClient` transport is a record of response functions
  (`conversations_open`, `chat_postMessage`, `files_upload`), each returning
  `Except String String`: `Except.error code` models a raised `SlackApiError`
  whose `e.response` field carries `code`; `Except.ok s` models a successful
  response carrying the channel id (for `conversations_open`) or the message
  ts (for the other two).
* Methods that mutate `self._ts_holder` are state-passing functions returning
  the result tuple, the new `TrainingManager` state, and the trace of transport
  calls they issued (so that theorems can speak about what the transport received).
* Raised Python exceptions (`TypeError`, `ValueError`) become `Except PyError`;
  the `(False, error)` return path of a caught `SlackApiError` stays a returned value.
-/

/-- A `{"type": "mrkdwn", "text": ...}` field dict, as produced by
`_get_body_field` (interface.py line 55). The `type` tag is fixed, so only
the text is carried. -/
structure BodyField where
  text : String
deriving DecidableEq, Repr

/-- The closed set of block dicts the module builds: header blocks
(`_get_header_block`), section blocks with a field list (`_get_body_block`),
and divider blocks (`_get_divider_block`). The fixed wire fields
(`"type"`, `"emoji": true`, the `plain_text` tag) are implicit in the tag. -/
inductive Block where
  | header (text : String)
  | section (fields : List BodyField)
  | divider
deriving DecidableEq, Repr

/-- Argument list of one `client.chat_postMessage(...)` call:
channel, text, and the optional blocks / thread_ts / reply_broadcast /
icon_emoji keyword arguments (absent keyword = `none`). -/
structure PostCall where
  channel : String
  text : String
  blocks : Option (List Block)
  thread_ts : Option String
  reply_broadcast : Option Bool
  icon_emoji : Option String
deriving DecidableEq, Repr

/-- Argument list of one `client.files_upload(...)` call. -/
structure UploadCall where
  file : String
  channels : String
  title : Option String
  initial_comment : Option String
  thread_ts : Option String
deriving DecidableEq, Repr

/-- One recorded transport invocation. -/
inductive ApiCall where
  | post (c : PostCall)
  | upload (c : UploadCall)
deriving DecidableEq, Repr

/-- Python exceptions raised (not caught) by the module: `TypeError` and
`ValueError`, each with its message. The spec's `ChannelResolutionError` is
the `ValueError` raised in `_get_channel_id`; its `InvalidPathError` is meant
to cover the errors raised in `send_file`. -/
inductive PyError where
  | typeError (msg : String)
  | valueError (msg : String)
deriving DecidableEq, Repr

/-- The `slack_sdk.WebClient` transport boundary, as the three endpoints the
module calls. `Except.error code` models a `SlackApiError` carrying `code`. -/
structure WebClient where
  conversations_open : String → Except String String
  chat_postMessage : PostCall → Except String String
  files_upload : UploadCall → Except String String

/-- The filesystem boundary used by `send_file`'s `path.is_file()` check. -/
structure FileSystem where
  is_file : String → Bool

/-- The `path` argument of `send_file`, which in Python may be a `str`, a
`pathlib.Path`, or a value of any other type (`other` carries the offending
type's name, used in the `TypeError` message). -/
inductive PyValue where
  | str (s : String)
  | path (s : String)
  | other (typeName : String)
deriving DecidableEq, Repr

/-- `dict.get k`: first (and, for genuine dict states, only) binding of `k`. -/
def dictGet (d : List (String × String)) (k : String) : Option String :=
  match d with
  | [] => none
  | p :: rest => if p.1 = k then some p.2 else dictGet rest k

/-- `d[k] = v`: update in place if `k` is bound, else append (insertion order). -/
def dictSet (d : List (String × String)) (k v : String) : List (String × String) :=
  match d with
  | [] => [(k, v)]
  | p :: rest => if p.1 = k then (k, v) :: rest else p :: dictSet rest k v

/-- Number of bindings of key `k` in the store (a real `dict` has at most one). -/
def keyCount (d : List (String × String)) (k : String) : Nat :=
  (d.filter (fun p => p.1 = k)).length

/-- Instance state of `TrainingManager`: the wrapped client, the constructor
arguments' `user_id`, the resolved `channel_id`, and the `_ts_holder` map. -/
structure TrainingManager where
  client : WebClient
  user_id : String
  channel_id : String
  ts_holder : List (String × String)

/-- `_get_header_block` (interface.py lines 43-52). -/
def _get_header_block (text : String) : Block :=
  Block.header text

/-- `_get_body_field` (line 54-55). -/
def _get_body_field (text : String) : BodyField :=
  BodyField.mk text

/-- `_get_body_block` (lines 57-63). -/
def _get_body_block (fields : List BodyField) : Block :=
  Block.section fields

/-- `_get_divider_block` (lines 92-93). -/
def _get_divider_block : Block :=
  Block.divider

/-- The loop body of `_get_body_blocks` (lines 66-77): iterate with index `i`,
prepending a divider before every group except the one at `i = 0`. -/
def bodyBlocksAux : Nat → List (List BodyField) → List Block
  | _, [] => []
  | i, fields :: rest =>
      (if i ≠ 0 then [_get_divider_block] else []) ++
        (Block.section fields :: bodyBlocksAux (i + 1) rest)

/-- `_get_body_blocks` (lines 66-77): one section block per field group, a
divider between consecutive groups. -/
def _get_body_blocks (fields_group : List (List BodyField)) : List Block :=
  bodyBlocksAux 0 fields_group

/-- `_compose_blocks` (lines 95-101): drop the `None` entries, keep order. -/
def _compose_blocks (blocks : List (Option Block)) : List Block :=
  match blocks with
  | [] => []
  | block :: rest =>
    match block with
    | none => _compose_blocks rest
    | some b => b :: _compose_blocks rest

/-- `_get_channel_id` (interface.py lines 35-41): open a direct-message
conversation for `user_id`; a `SlackApiError` becomes a raised `ValueError`
(the spec's `ChannelResolutionError`), discarding the transport's error detail
(`from None`); on success the response's channel id is returned. -/
def _get_channel_id (client : WebClient) (user_id : String) : Except PyError String :=
  match client.conversations_open user_id with
  | Except.error _ =>
      Except.error (PyError.valueError "Cannot find channel name. Make sure `user_id` is valid")
  | Except.ok channel_id => Except.ok channel_id

/-- `TrainingManager.__init__` (lines 22-33): resolve the channel id at
construction time (raising out of the constructor on failure, so no instance
exists), then start with an empty `_ts_holder`. The `WebClient(token=bot_token)`
construction is transport-internal, so the model takes the client directly. -/
def TrainingManager.init (client : WebClient) (user_id : String) :
    Except PyError TrainingManager :=
  match _get_channel_id client user_id with
  | Except.error e => Except.error e
  | Except.ok channel_id => Except.ok (TrainingManager.mk client user_id channel_id [])

/-- `get_ts` (lines 103-104): a pure read of `_ts_holder`. -/
def get_ts (m : TrainingManager) (id : String) : Option String :=
  dictGet m.ts_holder id

/-- The `chat_postMessage` argument record built by `send_plain_message`
(lines 106-115): channel and text only, no other keyword arguments. -/
def plain_call (m : TrainingManager) (message : String) : PostCall :=
  PostCall.mk m.channel_id message none none none none

/-- `send_plain_message` (lines 106-115). Returns the result tuple, the
(unchanged) instance state, and the trace of transport calls issued. -/
def send_plain_message (m : TrainingManager) (message : String) :
    (Bool × String) × TrainingManager × List ApiCall :=
  match m.client.chat_postMessage (plain_call m message) with
  | Except.error e => ((false, e), m, [ApiCall.post (plain_call m message)])
  | Except.ok ts => ((true, ts), m, [ApiCall.post (plain_call m message)])

/-- The `chat_postMessage` argument record built by `send_rich_block`
(lines 117-131): the composed (None-filtered) block list plus the pass-through
thread_ts / reply_broadcast / icon_emoji keyword arguments. -/
def rich_call (m : TrainingManager) (mobile_text : String)
    (blocks : List (Option Block)) (ts : Option String)
    (reply_broadcast : Option Bool) (icon_emoji : Option String) : PostCall :=
  PostCall.mk m.channel_id mobile_text (some (_compose_blocks blocks)) ts
    reply_broadcast icon_emoji

/-- `send_rich_block` (lines 117-131): post the composed blocks; a
`SlackApiError` is caught and returned as `(False, error_code)`. -/
def send_rich_block (m : TrainingManager) (mobile_text : String)
    (blocks : List (Option Block)) (ts : Option String)
    (reply_broadcast : Option Bool) (icon_emoji : Option String) :
    (Bool × String) × TrainingManager × List ApiCall :=
  match m.client.chat_postMessage (rich_call m mobile_text blocks ts reply_broadcast icon_emoji) with
  | Except.error e =>
      ((false, e), m, [ApiCall.post (rich_call m mobile_text blocks ts reply_broadcast icon_emoji)])
  | Except.ok ts2 =>
      ((true, ts2), m, [ApiCall.post (rich_call m mobile_text blocks ts reply_broadcast icon_emoji)])

/-- The `files_upload` argument record built by `send_file` (lines 144-150). -/
def upload_call (m : TrainingManager) (p : String) (title : Option String)
    (text : Option String) (ts : Option String) : UploadCall :=
  UploadCall.mk p m.channel_id title text ts

/-- `send_file` (lines 133-155): a non-`str`/`Path` argument raises
`TypeError`; a path that is not an existing regular file raises `ValueError`;
only then is `files_upload` called, with a `SlackApiError` caught and
returned as `(False, error_code)`. -/
def send_file (fs : FileSystem) (m : TrainingManager) (path : PyValue)
    (title : Option String) (text : Option String) (ts : Option String) :
    Except PyError ((Bool × String) × TrainingManager × List ApiCall) :=
  match path with
  | PyValue.other typeName =>
      Except.error (PyError.typeError
        s!"`path` expected `str` or `pathlib.Path` but got `{typeName}`")
  | PyValue.str p | PyValue.path p =>
    if fs.is_file p then
      match m.client.files_upload (upload_call m p title text ts) with
      | Except.error e =>
          Except.ok ((false, e), m, [ApiCall.upload (upload_call m p title text ts)])
      | Except.ok ts2 =>
          Except.ok ((true, ts2), m, [ApiCall.upload (upload_call m p title text ts)])
    else
      Except.error (PyError.valueError "Specified `path` is not valid file")

/-- The f-string `f"*{key}:* \n{value}"` fed to `_get_body_field` in
`send_training_start` (line 166). -/
def render_start_field : String × String → BodyField
  | (key, value) => _get_body_field s!"*{key}:* \n{value}"

/-- The f-string `f"*{key}:* \n{value}"` fed to `_get_body_field` in
`send_progress` (line 195); textually identical to the one in
`send_training_start`. -/
def render_progress_field : String × String → BodyField
  | (key, value) => _get_body_field s!"*{key}:* \n{value}"

/-- The f-string `f"*{key}:* {value}"` fed to `_get_body_field` in
`send_error` (line 224). -/
def render_error_field : String × String → BodyField
  | (key, value) => _get_body_field s!"*{key}:* {value}"

/-- The f-string `f"*{key}* : {value}"` fed to `_get_body_field` in
`send_result` (line 246). -/
def render_result_field : String × String → BodyField
  | (key, value) => _get_body_field s!"*{key}* : {value}"

/-- The `for i, (key, value) in enumerate(optional.items()): if i > 9: break`
loop of `send_training_start` / `send_progress` (lines 164-167 / 193-196):
render pairs in order, stopping once the index exceeds 9. -/
def renderFieldsCapped (f : String × String → BodyField) :
    List (String × String) → Nat → List BodyField
  | [], _ => []
  | kv :: rest, i => if i > 9 then [] else f kv :: renderFieldsCapped f rest (i + 1)

/-- The uncapped `for key, value in optional.items()` loop of
`send_error` / `send_result` (lines 221-224 / 244-246). -/
def renderFieldsAll (f : String × String → BodyField) :
    List (String × String) → List BodyField
  | [] => []
  | kv :: rest => f kv :: renderFieldsAll f rest

/-- `send_training_start` (lines 157-184): header + divider + capped field
groups, thread onto any stored ts, and on a first success store the returned
ts under the job id. -/
def send_training_start (m : TrainingManager) (id : String)
    (optionals : Option (List (List (String × String)))) :
    (Bool × String) × TrainingManager × List ApiCall :=
  let header_block := _get_header_block s!"学習開始 --- {id}"
  let mobile_text := s!"{id}の学習を開始しました"
  let divider_block := _get_divider_block
  let body_groups :=
    match optionals with
    | none => []
    | some opts => opts.map (fun optional => renderFieldsCapped render_start_field optional 0)
  let body_blocks := _get_body_blocks body_groups
  let ts := dictGet m.ts_holder id
  let sr := send_rich_block m mobile_text
    (List.map some (header_block :: divider_block :: body_blocks)) ts none none
  if sr.1.1 = false then
    ((false, sr.1.2), m, sr.2.2)
  else
    ((true, ""),
      (if ts = none then
        TrainingManager.mk m.client m.user_id m.channel_id (dictSet m.ts_holder id sr.1.2)
      else m),
      sr.2.2)

/-- `send_progress` (lines 186-213): same structure as `send_training_start`
with the progress header and mobile text. -/
def send_progress (m : TrainingManager) (id : String)
    (optionals : Option (List (List (String × String)))) :
    (Bool × String) × TrainingManager × List ApiCall :=
  let header_block := _get_header_block s!"途中経過 --- {id}"
  let mobile_text := s!"{id}の途中経過です"
  let divider_block := _get_divider_block
  let body_groups :=
    match optionals with
    | none => []
    | some opts => opts.map (fun optional => renderFieldsCapped render_progress_field optional 0)
  let body_blocks := _get_body_blocks body_groups
  let ts := dictGet m.ts_holder id
  let sr := send_rich_block m mobile_text
    (List.map some (header_block :: divider_block :: body_blocks)) ts none none
  if sr.1.1 = false then
    ((false, sr.1.2), m, sr.2.2)
  else
    ((true, ""),
      (if ts = none then
        TrainingManager.mk m.client m.user_id m.channel_id (dictSet m.ts_holder id sr.1.2)
      else m),
      sr.2.2)

/-- `send_error` (lines 215-242): a single uncapped field-group block
(guarded by `if optional is not None`, hence the `Option` argument), posted
with the caller's `reply_broadcast` and a `:warning:` icon override. -/
def send_error (m : TrainingManager) (id : String)
    (optional : Option (List (String × String))) (reply_broadcast : Bool) :
    (Bool × String) × TrainingManager × List ApiCall :=
  let header_block := _get_header_block s!"エラーが発生しました --- {id}"
  let mobile_text := s!"{id}でエラーが発生しました"
  let divider_block := _get_divider_block
  let body_fields :=
    match optional with
    | none => []
    | some opt => renderFieldsAll render_error_field opt
  let body_block := _get_body_block body_fields
  let ts := dictGet m.ts_holder id
  let sr := send_rich_block m mobile_text
    (List.map some [header_block, divider_block, body_block]) ts
    (some reply_broadcast) (some ":warning:")
  if sr.1.1 = false then
    ((false, sr.1.2), m, sr.2.2)
  else
    ((true, ""),
      (if ts = none then
        TrainingManager.mk m.client m.user_id m.channel_id (dictSet m.ts_holder id sr.1.2)
      else m),
      sr.2.2)

/-- `send_result` (lines 244-269): a single uncapped field-group block (no
`None` guard on `optional` in the source), no broadcast, no icon override. -/
def send_result (m : TrainingManager) (id : String)
    (optional : List (String × String)) :
    (Bool × String) × TrainingManager × List ApiCall :=
  let header_block := _get_header_block s!"学習終了 --- {id}"
  let mobile_text := s!"{id}の学習が終了しました"
  let divider_block := _get_divider_block
  let body_fields := renderFieldsAll render_result_field optional
  let body_block := _get_body_block body_fields
  let ts := dictGet m.ts_holder id
  let sr := send_rich_block m mobile_text
    (List.map some [header_block, divider_block, body_block]) ts none none
  if sr.1.1 = false then
    ((false, sr.1.2), m, sr.2.2)
  else
    ((true, ""),
      (if ts = none then
        TrainingManager.mk m.client m.user_id m.channel_id (dictSet m.ts_holder id sr.1.2)
      else m),
      sr.2.2)

/-- The ts-bookkeeping tail shared verbatim by all four lifecycle sends
(lines 174-184, 203-213, 228-242, 253-263): look up the stored ts, post via
`send_rich_block`, return `(False, error)` untouched on failure, store the
returned ts only when none was stored, and return `(True, "")`. -/
def lifecycleStep (m : TrainingManager) (id : String)
    (sr : (Bool × String) × TrainingManager × List ApiCall) :
    (Bool × String) × TrainingManager × List ApiCall :=
  if sr.1.1 = false then
    ((false, sr.1.2), m, sr.2.2)
  else
    ((true, ""),
      (if dictGet m.ts_holder id = none then
        TrainingManager.mk m.client m.user_id m.channel_id (dictSet m.ts_holder id sr.1.2)
      else m),
      sr.2.2)

/-- The full shared tail: post the given blocks threaded onto the stored ts,
then apply the bookkeeping step. Each of the four sends is definitionally an
instance of this (see `send_training_start_eq` and companions). -/
def lifecycleSend (m : TrainingManager) (id : String) (mobile_text : String)
    (blocks : List (Option Block)) (reply_broadcast : Option Bool)
    (icon_emoji : Option String) :
    (Bool × String) × TrainingManager × List ApiCall :=
  lifecycleStep m id
    (send_rich_block m mobile_text blocks (dictGet m.ts_holder id) reply_broadcast icon_emoji)

/-- Selector for the four job-lifecycle sends. -/
inductive Lifecycle where
  | start
  | progress
  | error
  | result
deriving DecidableEq, Repr

/-- Dispatcher over the four lifecycle sends, so theorems can quantify over
"every lifecycle send" at once. The unused argument of each variant is
ignored, matching each method's own signature. -/
def runLifecycle (k : Lifecycle) (m : TrainingManager) (id : String)
    (optionals : Option (List (List (String × String))))
    (optional : List (String × String)) (reply_broadcast : Bool) :
    (Bool × String) × TrainingManager × List ApiCall :=
  match k with
  | Lifecycle.start => send_training_start m id optionals
  | Lifecycle.progress => send_progress m id optionals
  | Lifecycle.error => send_error m id (some optional) reply_broadcast
  | Lifecycle.result => send_result m id optional

/-! ### Helper definitions for the theorems -/

/-- The channel argument a transport call carries. -/
def callChannel : ApiCall → String
  | ApiCall.post c => c.channel
  | ApiCall.upload c => c.channels

/-- The field groups `send_training_start` renders from its `optionals`. -/
def start_body_groups (optionals : Option (List (List (String × String)))) :
    List (List BodyField) :=
  match optionals with
  | none => []
  | some opts => opts.map (fun optional => renderFieldsCapped render_start_field optional 0)

/-- The field groups `send_progress` renders from its `optionals`. -/
def progress_body_groups (optionals : Option (List (List (String × String)))) :
    List (List BodyField) :=
  match optionals with
  | none => []
  | some opts => opts.map (fun optional => renderFieldsCapped render_progress_field optional 0)

/-- The block argument `send_training_start` passes to `send_rich_block`. -/
def start_blocks (id : String) (optionals : Option (List (List (String × String)))) :
    List (Option Block) :=
  List.map some (_get_header_block s!"学習開始 --- {id}" :: _get_divider_block ::
    _get_body_blocks (start_body_groups optionals))

/-- The block argument `send_progress` passes to `send_rich_block`. -/
def progress_blocks (id : String) (optionals : Option (List (List (String × String)))) :
    List (Option Block) :=
  List.map some (_get_header_block s!"途中経過 --- {id}" :: _get_divider_block ::
    _get_body_blocks (progress_body_groups optionals))

/-- The block argument `send_error` passes to `send_rich_block`. -/
def error_blocks (id : String) (optional : Option (List (String × String))) :
    List (Option Block) :=
  List.map some [_get_header_block s!"エラーが発生しました --- {id}", _get_divider_block,
    _get_body_block (match optional with
      | none => []
      | some opt => renderFieldsAll render_error_field opt)]

/-- The block argument `send_result` passes to `send_rich_block`. -/
def result_blocks (id : String) (optional : List (String × String)) :
    List (Option Block) :=
  List.map some [_get_header_block s!"学習終了 --- {id}", _get_divider_block,
    _get_body_block (renderFieldsAll render_result_field optional)]

/-! ### Factorization of the lifecycle sends through `lifecycleSend` -/

theorem send_training_start_eq (m : TrainingManager) (id : String)
    (optionals : Option (List (List (String × String)))) :
    send_training_start m id optionals =
      lifecycleSend m id s!"{id}の学習を開始しました" (start_blocks id optionals) none none := rfl

theorem send_progress_eq (m : TrainingManager) (id : String)
    (optionals : Option (List (List (String × String)))) :
    send_progress m id optionals =
      lifecycleSend m id s!"{id}の途中経過です" (progress_blocks id optionals) none none := rfl

theorem send_error_eq (m : TrainingManager) (id : String)
    (optional : Option (List (String × String))) (rb : Bool) :
    send_error m id optional rb =
      lifecycleSend m id s!"{id}でエラーが発生しました" (error_blocks id optional)
        (some rb) (some ":warning:") := rfl

theorem send_result_eq (m : TrainingManager) (id : String)
    (optional : List (String × String)) :
    send_result m id optional =
      lifecycleSend m id s!"{id}の学習が終了しました" (result_blocks id optional) none none := rfl

/-- Every branch of `runLifecycle` is a `lifecycleSend` on some mobile text,
block list, broadcast flag and icon. -/
theorem runLifecycle_eq (k : Lifecycle) (m : TrainingManager) (id : String)
    (optionals : Option (List (List (String × String))))
    (optional : List (String × String)) (rb : Bool) :
    ∃ mt blocks rb2 ie, runLifecycle k m id optionals optional rb =
      lifecycleSend m id mt blocks rb2 ie := by
  cases k
  case start => exact ⟨_, _, _, _, send_training_start_eq m id optionals⟩
  case progress => exact ⟨_, _, _, _, send_progress_eq m id optionals⟩
  case error => exact ⟨_, _, _, _, send_error_eq m id (some optional) rb⟩
  case result => exact ⟨_, _, _, _, send_result_eq m id optional⟩

/-! ### Behaviour of `send_rich_block` and `lifecycleSend` -/

theorem send_rich_block_trace (m : TrainingManager) (mt : String)
    (blocks : List (Option Block)) (ts : Option String) (rb : Option Bool)
    (ie : Option String) :
    (send_rich_block m mt blocks ts rb ie).2.2 =
      [ApiCall.post (rich_call m mt blocks ts rb ie)] := by
  unfold send_rich_block
  cases m.client.chat_postMessage (rich_call m mt blocks ts rb ie) <;> rfl

theorem send_rich_block_error (m : TrainingManager) (mt : String)
    (blocks : List (Option Block)) (ts : Option String) (rb : Option Bool)
    (ie : Option String) (e : String)
    (h : m.client.chat_postMessage (rich_call m mt blocks ts rb ie) = Except.error e) :
    send_rich_block m mt blocks ts rb ie =
      ((false, e), m, [ApiCall.post (rich_call m mt blocks ts rb ie)]) := by
  unfold send_rich_block
  rw [h]

theorem send_rich_block_ok (m : TrainingManager) (mt : String)
    (blocks : List (Option Block)) (ts : Option String) (rb : Option Bool)
    (ie : Option String) (t : String)
    (h : m.client.chat_postMessage (rich_call m mt blocks ts rb ie) = Except.ok t) :
    send_rich_block m mt blocks ts rb ie =
      ((true, t), m, [ApiCall.post (rich_call m mt blocks ts rb ie)]) := by
  unfold send_rich_block
  rw [h]

/-- The post call a `lifecycleSend` issues: its blocks, with the stored ts
(if any) as `thread_ts`. -/
def lifecycle_call (m : TrainingManager) (id : String) (mt : String)
    (blocks : List (Option Block)) (rb : Option Bool) (ie : Option String) : PostCall :=
  rich_call m mt blocks (dictGet m.ts_holder id) rb ie

theorem lifecycleSend_of_error (m : TrainingManager) (id mt : String)
    (blocks : List (Option Block)) (rb : Option Bool) (ie : Option String) (e : String)
    (h : m.client.chat_postMessage (lifecycle_call m id mt blocks rb ie) = Except.error e) :
    lifecycleSend m id mt blocks rb ie =
      ((false, e), m, [ApiCall.post (lifecycle_call m id mt blocks rb ie)]) := by
  unfold lifecycleSend lifecycleStep
  rw [send_rich_block_error m mt blocks _ rb ie _ h]
  rfl

theorem lifecycleSend_of_ok (m : TrainingManager) (id mt : String)
    (blocks : List (Option Block)) (rb : Option Bool) (ie : Option String) (t : String)
    (h : m.client.chat_postMessage (lifecycle_call m id mt blocks rb ie) = Except.ok t) :
    lifecycleSend m id mt blocks rb ie =
      ((true, ""),
       (if dictGet m.ts_holder id = none then
          TrainingManager.mk m.client m.user_id m.channel_id (dictSet m.ts_holder id t)
        else m),
       [ApiCall.post (lifecycle_call m id mt blocks rb ie)]) := by
  unfold lifecycleSend lifecycleStep
  rw [send_rich_block_ok m mt blocks _ rb ie _ h]
  rfl

theorem lifecycleSend_trace (m : TrainingManager) (id mt : String)
    (blocks : List (Option Block)) (rb : Option Bool) (ie : Option String) :
    (lifecycleSend m id mt blocks rb ie).2.2 =
      [ApiCall.post (lifecycle_call m id mt blocks rb ie)] := by
  cases h : m.client.chat_postMessage (lifecycle_call m id mt blocks rb ie)
  · rw [lifecycleSend_of_error m id mt blocks rb ie _ h]
  · rw [lifecycleSend_of_ok m id mt blocks rb ie _ h]

/-- A failed `lifecycleSend` leaves the whole state untouched and surfaces
the transport's error code. -/
theorem lifecycleSend_failure_frame (m : TrainingManager) (id mt : String)
    (blocks : List (Option Block)) (rb : Option Bool) (ie : Option String)
    (hfail : (lifecycleSend m id mt blocks rb ie).1.1 = false) :
    (lifecycleSend m id mt blocks rb ie).2.1 = m ∧
      m.client.chat_postMessage (lifecycle_call m id mt blocks rb ie) =
        Except.error (lifecycleSend m id mt blocks rb ie).1.2 := by
  cases h : m.client.chat_postMessage (lifecycle_call m id mt blocks rb ie)
  · rw [lifecycleSend_of_error m id mt blocks rb ie _ h]
    exact ⟨rfl, rfl⟩
  · rw [lifecycleSend_of_ok m id mt blocks rb ie _ h] at hfail
    simp at hfail

/-! ### Dictionary lemmas -/

theorem dictGet_dictSet_self (d : List (String × String)) (k v : String) :
    dictGet (dictSet d k v) k = some v := by
  induction d with
  | nil => simp [dictGet, dictSet]
  | cons p rest ih =>
    by_cases hp : p.1 = k
    · simp [dictGet, dictSet, hp]
    · simp [dictGet, dictSet, hp, ih]

theorem dictSet_of_get_none (d : List (String × String)) (k v : String)
    (h : dictGet d k = none) : dictSet d k v = d ++ [(k, v)] := by
  induction d with
  | nil => rfl
  | cons p rest ih =>
    by_cases hp : p.1 = k
    · simp [dictGet, hp] at h
    · simp [dictGet, hp] at h
      simp [dictSet, hp, ih h]

theorem keyCount_eq_zero_of_get_none (d : List (String × String)) (k : String)
    (h : dictGet d k = none) : keyCount d k = 0 := by
  induction d with
  | nil => rfl
  | cons p rest ih =>
    by_cases hp : p.1 = k
    · simp [dictGet, hp] at h
    · simp [dictGet, hp] at h
      simp [keyCount, List.filter, hp] at ih ⊢
      exact ih h

theorem keyCount_dictSet_of_get_none (d : List (String × String)) (k v : String)
    (h : dictGet d k = none) : keyCount (dictSet d k v) k = 1 := by
  rw [dictSet_of_get_none d k v h]
  have h0 := keyCount_eq_zero_of_get_none d k h
  unfold keyCount at h0 ⊢
  rw [List.filter_append, List.length_append, h0]
  simp

/-! ### Loop characterizations -/

/-- The capped rendering loop takes exactly the first `10 - i` remaining
pairs, in order. -/
theorem renderFieldsCapped_eq (f : String × String → BodyField) :
    ∀ (l : List (String × String)) (i : Nat), i ≤ 10 →
      renderFieldsCapped f l i = (l.take (10 - i)).map f := by
  intro l
  induction l with
  | nil => intro i _; rw [List.take_nil]; rfl
  | cons kv rest ih =>
    intro i hi
    by_cases h9 : i > 9
    · have h10 : i = 10 := by omega
      subst h10
      simp [renderFieldsCapped]
    · have hsub : 10 - i = (10 - (i + 1)) + 1 := by omega
      rw [hsub, List.take_succ_cons, List.map_cons, ← ih (i + 1) (by omega)]
      simp [renderFieldsCapped, h9]

/-- The `i > 9: break` loop, started at 0, renders exactly the first
`min n 10` pairs. -/
theorem renderFieldsCapped_zero (f : String × String → BodyField)
    (l : List (String × String)) :
    renderFieldsCapped f l 0 = (l.take 10).map f := by
  simpa using renderFieldsCapped_eq f l 0 (by omega)

/-- The uncapped rendering loop is a plain map over all pairs. -/
theorem renderFieldsAll_eq (f : String × String → BodyField)
    (l : List (String × String)) :
    renderFieldsAll f l = l.map f := by
  induction l with
  | nil => rfl
  | cons kv rest ih => simp [renderFieldsAll, ih]

/-- `_compose_blocks` equals the canonical `Option`-filtering `reduceOption`,
which removes exactly the `none` entries and keeps the relative order. -/
theorem compose_blocks_eq_reduceOption (blocks : List (Option Block)) :
    _compose_blocks blocks = blocks.reduceOption := by
  induction blocks with
  | nil => rfl
  | cons b rest ih =>
    cases b <;> simp [_compose_blocks, ih, List.reduceOption]

/-- Once past the first group (any positive index), the loop of
`_get_body_blocks` emits a divider before every remaining section. -/
theorem bodyBlocksAux_succ (l : List (List BodyField)) :
    ∀ i : Nat, bodyBlocksAux (i + 1) l =
      l.flatMap (fun fields => [Block.divider, Block.section fields]) := by
  induction l with
  | nil => intro i; rfl
  | cons fields rest ih =>
    intro i
    simp [bodyBlocksAux, _get_divider_block, ih (i + 1)]

/-- `_get_body_blocks` interleaves exactly one divider between consecutive
section blocks, with no divider at either end. -/
theorem sectionCons_flatMap_eq_intersperse :
    ∀ (t : List (List BodyField)) (g : List BodyField),
      Block.section g :: t.flatMap (fun fields => [Block.divider, Block.section fields]) =
        List.intersperse Block.divider (Block.section g :: t.map Block.section) := by
  intro t
  induction t with
  | nil => intro g; rfl
  | cons h2 t2 ih =>
    intro g
    rw [List.map_cons, List.intersperse_cons_cons, ← ih h2]
    rfl

/-- `_get_body_blocks` interleaves exactly one divider between consecutive
section blocks, with no divider at either end. -/
theorem getBodyBlocks_eq_intersperse (gs : List (List BodyField)) :
    _get_body_blocks gs = List.intersperse Block.divider (gs.map Block.section) := by
  cases gs with
  | nil => rfl
  | cons g rest =>
    show Block.section g :: bodyBlocksAux 1 rest = _
    rw [bodyBlocksAux_succ rest 0, List.map_cons]
    exact sectionCons_flatMap_eq_intersperse rest g

/-- Composing a list with no `None` entries returns it unchanged. -/
theorem compose_blocks_map_some (l : List Block) :
    _compose_blocks (List.map some l) = l := by
  induction l with
  | nil => rfl
  | cons b rest ih => simp [_compose_blocks, ih]

/-- Interspersing a separator yields `2 * n - 1` elements. -/
theorem length_intersperse {α : Type} (sep : α) (l : List α) :
    (List.intersperse sep l).length = 2 * l.length - 1 := by
  induction l with
  | nil => rfl
  | cons a t ih =>
    cases t with
    | nil => rfl
    | cons b t2 =>
      rw [List.intersperse_cons_cons]
      simp only [List.length_cons] at ih ⊢
      omega

/-- When a ts is already stored for the job id, a `lifecycleSend` passes it
as the transport's `thread_ts` and leaves the store unchanged. -/
theorem lifecycleSend_no_overwrite (m : TrainingManager) (id mt : String)
    (blocks : List (Option Block)) (rb : Option Bool) (ie : Option String)
    (t : String) (h : dictGet m.ts_holder id = some t) :
    (lifecycleSend m id mt blocks rb ie).2.1.ts_holder = m.ts_holder ∧
      (lifecycleSend m id mt blocks rb ie).2.2 =
        [ApiCall.post (lifecycle_call m id mt blocks rb ie)] ∧
      (lifecycle_call m id mt blocks rb ie).thread_ts = some t := by
  cases hc : m.client.chat_postMessage (lifecycle_call m id mt blocks rb ie)
  · rw [lifecycleSend_of_error m id mt blocks rb ie _ hc]
    exact ⟨rfl, rfl, h⟩
  · rw [lifecycleSend_of_ok m id mt blocks rb ie _ hc]
    refine ⟨?_, rfl, h⟩
    simp [h]

/-- When no ts is stored for the job id, a successful `lifecycleSend` passed
`thread_ts = none` and stores the ts the transport returned. -/
theorem lifecycleSend_first_store (m : TrainingManager) (id mt : String)
    (blocks : List (Option Block)) (rb : Option Bool) (ie : Option String)
    (h : dictGet m.ts_holder id = none)
    (hok : (lifecycleSend m id mt blocks rb ie).1.1 = true) :
    ∃ tsNew, m.client.chat_postMessage (lifecycle_call m id mt blocks rb ie) = Except.ok tsNew ∧
      (lifecycleSend m id mt blocks rb ie).2.2 =
        [ApiCall.post (lifecycle_call m id mt blocks rb ie)] ∧
      (lifecycle_call m id mt blocks rb ie).thread_ts = none ∧
      (lifecycleSend m id mt blocks rb ie).2.1.ts_holder = dictSet m.ts_holder id tsNew := by
  cases hc : m.client.chat_postMessage (lifecycle_call m id mt blocks rb ie)
  · rw [lifecycleSend_of_error m id mt blocks rb ie _ hc] at hok
    simp at hok
  case ok tsNew =>
    refine ⟨tsNew, rfl, ?_⟩
    rw [lifecycleSend_of_ok m id mt blocks rb ie _ hc]
    refine ⟨rfl, h, ?_⟩
    simp [h]

/-- A `lifecycleSend` keeps the store's per-key entry count at most one. -/
theorem lifecycleSend_keyCount (m : TrainingManager) (id mt : String)
    (blocks : List (Option Block)) (rb : Option Bool) (ie : Option String)
    (h1 : keyCount m.ts_holder id ≤ 1) :
    keyCount (lifecycleSend m id mt blocks rb ie).2.1.ts_holder id ≤ 1 := by
  cases hc : m.client.chat_postMessage (lifecycle_call m id mt blocks rb ie)
  · rw [lifecycleSend_of_error m id mt blocks rb ie _ hc]
    exact h1
  · rw [lifecycleSend_of_ok m id mt blocks rb ie _ hc]
    cases hget : dictGet m.ts_holder id
    · simp only [hget, if_pos]
      rw [keyCount_dictSet_of_get_none m.ts_holder id _ hget]
    · simp [hget]
      exact h1

/-! ### Concrete fixtures for witnesses and counterexamples -/

/-- A transport whose every call succeeds: channel `"CH00"`, ts `"123.456"`. -/
def clientOk : WebClient :=
  WebClient.mk (fun _ => Except.ok "CH00") (fun _ => Except.ok "123.456")
    (fun _ => Except.ok "123.456")

/-- A transport whose message/file calls fail with `"channel_not_found"`. -/
def clientFail : WebClient :=
  WebClient.mk (fun _ => Except.ok "CH00") (fun _ => Except.error "channel_not_found")
    (fun _ => Except.error "channel_not_found")

/-- A freshly constructed manager over `clientOk` (empty ts store). -/
def mgrOk : TrainingManager :=
  TrainingManager.mk clientOk "U001" "CH00" []

/-- A manager over `clientOk` that already stores ts `"111.222"` for `"job"`. -/
def mgrWithTs : TrainingManager :=
  TrainingManager.mk clientOk "U001" "CH00" [("job", "111.222")]

/-- A manager over the failing transport (empty ts store). -/
def mgrFail : TrainingManager :=
  TrainingManager.mk clientFail "U001" "CH00" []

/-- A filesystem with no regular files. -/
def fsNone : FileSystem :=
  FileSystem.mk (fun _ => false)

/-- A filesystem on which exactly `"/tmp/model.pt"` is a regular file. -/
def fsModel : FileSystem :=
  FileSystem.mk (fun p => p = "/tmp/model.pt")

/-- What a given transport answers to a recorded call. -/
def transportResult (c : WebClient) : ApiCall → Except String String
  | ApiCall.post p => c.chat_postMessage p
  | ApiCall.upload u => c.files_upload u

/-! ### The claims -/

/-- C1: for every job id, the ts store keeps at most one entry, an entry once
set is never overwritten (any lifecycle send finding a stored ts reuses it as
the transport's `thread_ts` and leaves the store untouched), and the first
successful lifecycle send for the id passes `thread_ts = None` and stores the
ts the transport returned. -/
theorem C1_thread_state_write_once (k : Lifecycle) (m : TrainingManager) (id : String)
    (optionals : Option (List (List (String × String))))
    (optional : List (String × String)) (rb : Bool) :
    (keyCount m.ts_holder id ≤ 1 →
       keyCount (runLifecycle k m id optionals optional rb).2.1.ts_holder id ≤ 1) ∧
    (∀ t, dictGet m.ts_holder id = some t →
       (runLifecycle k m id optionals optional rb).2.1.ts_holder = m.ts_holder ∧
       ∃ c, (runLifecycle k m id optionals optional rb).2.2 = [ApiCall.post c] ∧
         c.thread_ts = some t) ∧
    (dictGet m.ts_holder id = none →
       (runLifecycle k m id optionals optional rb).1.1 = true →
       ∃ c tsNew, (runLifecycle k m id optionals optional rb).2.2 = [ApiCall.post c] ∧
         c.thread_ts = none ∧ m.client.chat_postMessage c = Except.ok tsNew ∧
         (runLifecycle k m id optionals optional rb).2.1.ts_holder =
           dictSet m.ts_holder id tsNew ∧
         get_ts (runLifecycle k m id optionals optional rb).2.1 id = some tsNew) := by
  obtain ⟨mt, blocks, rb2, ie, heq⟩ := runLifecycle_eq k m id optionals optional rb
  rw [heq]
  refine ⟨fun h1 => lifecycleSend_keyCount m id mt blocks rb2 ie h1,
    fun t ht => ?_, fun hn hok => ?_⟩
  · obtain ⟨h1, h2, h3⟩ := lifecycleSend_no_overwrite m id mt blocks rb2 ie t ht
    exact ⟨h1, _, h2, h3⟩
  · obtain ⟨tsNew, hc, htr, hthread, hstore⟩ :=
      lifecycleSend_first_store m id mt blocks rb2 ie hn hok
    refine ⟨_, tsNew, htr, hthread, hc, hstore, ?_⟩
    show dictGet (lifecycleSend m id mt blocks rb2 ie).2.1.ts_holder id = some tsNew
    rw [hstore]
    exact dictGet_dictSet_self m.ts_holder id tsNew

/-- C1 witness: over `clientOk`, a `send_progress` on a manager already holding
ts `"111.222"` for `"job"` reuses it as `thread_ts` and changes nothing, and a
first `send_training_start` on a fresh manager passes `thread_ts = None` and
stores the transport's ts. -/
theorem C1_thread_state_write_once_witness :
    (keyCount (runLifecycle Lifecycle.progress mgrWithTs "job" none [] true).2.1.ts_holder
        "job" ≤ 1) ∧
    ((runLifecycle Lifecycle.progress mgrWithTs "job" none [] true).2.1.ts_holder =
        mgrWithTs.ts_holder ∧
      ∃ c, (runLifecycle Lifecycle.progress mgrWithTs "job" none [] true).2.2 =
          [ApiCall.post c] ∧ c.thread_ts = some "111.222") ∧
    (∃ c tsNew, (runLifecycle Lifecycle.start mgrOk "job" none [] true).2.2 =
        [ApiCall.post c] ∧
      c.thread_ts = none ∧ mgrOk.client.chat_postMessage c = Except.ok tsNew ∧
      (runLifecycle Lifecycle.start mgrOk "job" none [] true).2.1.ts_holder =
        dictSet mgrOk.ts_holder "job" tsNew ∧
      get_ts (runLifecycle Lifecycle.start mgrOk "job" none [] true).2.1 "job" =
        some tsNew) :=
  ⟨(C1_thread_state_write_once Lifecycle.progress mgrWithTs "job" none [] true).1 (by decide),
   (C1_thread_state_write_once Lifecycle.progress mgrWithTs "job" none [] true).2.1
     "111.222" (by decide),
   (C1_thread_state_write_once Lifecycle.start mgrOk "job" none [] true).2.2
     (by decide) (by decide)⟩

/-- C2: a lifecycle send whose transport call fails returns
`(False, errorCode)` and leaves the whole instance state — in particular the
ts store — exactly as it was. -/
theorem C2_failed_send_preserves_state (k : Lifecycle) (m : TrainingManager) (id : String)
    (optionals : Option (List (List (String × String))))
    (optional : List (String × String)) (rb : Bool)
    (hfail : (runLifecycle k m id optionals optional rb).1.1 = false) :
    (runLifecycle k m id optionals optional rb).2.1 = m ∧
    ∃ c, (runLifecycle k m id optionals optional rb).2.2 = [ApiCall.post c] ∧
      m.client.chat_postMessage c =
        Except.error (runLifecycle k m id optionals optional rb).1.2 := by
  obtain ⟨mt, blocks, rb2, ie, heq⟩ := runLifecycle_eq k m id optionals optional rb
  rw [heq] at hfail ⊢
  obtain ⟨h1, h2⟩ := lifecycleSend_failure_frame m id mt blocks rb2 ie hfail
  exact ⟨h1, _, lifecycleSend_trace m id mt blocks rb2 ie, h2⟩

/-- C2 witness: a `send_progress` over the failing transport returns the
error and leaves the (empty) state untouched. -/
theorem C2_failed_send_preserves_state_witness :
    (runLifecycle Lifecycle.progress mgrFail "job" none [] true).2.1 = mgrFail ∧
    ∃ c, (runLifecycle Lifecycle.progress mgrFail "job" none [] true).2.2 =
        [ApiCall.post c] ∧
      mgrFail.client.chat_postMessage c =
        Except.error (runLifecycle Lifecycle.progress mgrFail "job" none [] true).1.2 :=
  C2_failed_send_preserves_state Lifecycle.progress mgrFail "job" none [] true (by decide)

/-- C3: in `send_training_start` and `send_progress`, every field-map in
`optionals` is rendered as a field group holding exactly the first
`min n 10` pairs, in original order (pairs beyond the 10th silently dropped);
the transport receives header, divider, then those groups. -/
theorem C3_field_group_truncation (m : TrainingManager) (id : String)
    (gs : List (List (String × String))) :
    ((send_training_start m id (some gs)).2.2 =
        [ApiCall.post (lifecycle_call m id s!"{id}の学習を開始しました"
          (start_blocks id (some gs)) none none)] ∧
      (lifecycle_call m id s!"{id}の学習を開始しました"
          (start_blocks id (some gs)) none none).blocks =
        some (_get_header_block s!"学習開始 --- {id}" :: _get_divider_block ::
          _get_body_blocks (gs.map fun g => (g.take 10).map render_start_field)) ∧
      gs.map (fun g => ((g.take 10).map render_start_field).length) =
        gs.map (fun g => min g.length 10)) ∧
    ((send_progress m id (some gs)).2.2 =
        [ApiCall.post (lifecycle_call m id s!"{id}の途中経過です"
          (progress_blocks id (some gs)) none none)] ∧
      (lifecycle_call m id s!"{id}の途中経過です"
          (progress_blocks id (some gs)) none none).blocks =
        some (_get_header_block s!"途中経過 --- {id}" :: _get_divider_block ::
          _get_body_blocks (gs.map fun g => (g.take 10).map render_progress_field)) ∧
      gs.map (fun g => ((g.take 10).map render_progress_field).length) =
        gs.map (fun g => min g.length 10)) := by
  constructor
  · refine ⟨?_, ?_, ?_⟩
    · rw [send_training_start_eq]
      exact lifecycleSend_trace m id _ _ none none
    · show some (_compose_blocks (start_blocks id (some gs))) = _
      rw [start_blocks, compose_blocks_map_some]
      simp [start_body_groups, renderFieldsCapped_zero]
    · simp [List.length_take, Nat.min_comm]
  · refine ⟨?_, ?_, ?_⟩
    · rw [send_progress_eq]
      exact lifecycleSend_trace m id _ _ none none
    · show some (_compose_blocks (progress_blocks id (some gs))) = _
      rw [progress_blocks, compose_blocks_map_some]
      simp [progress_body_groups, renderFieldsCapped_zero]
    · simp [List.length_take, Nat.min_comm]

/-- C6: `send_rich_block` hands the transport exactly the `None`-filtered
input blocks — the subsequence of non-null entries in their original
relative order (`List.reduceOption`). -/
theorem C6_rich_message_filters_none_blocks (m : TrainingManager) (mt : String)
    (blocks : List (Option Block)) (ts : Option String) (rb : Option Bool)
    (ie : Option String) :
    (send_rich_block m mt blocks ts rb ie).2.2 =
      [ApiCall.post (rich_call m mt blocks ts rb ie)] ∧
    (rich_call m mt blocks ts rb ie).blocks = some blocks.reduceOption := by
  refine ⟨send_rich_block_trace m mt blocks ts rb ie, ?_⟩
  show some (_compose_blocks blocks) = some blocks.reduceOption
  rw [compose_blocks_eq_reduceOption]

/-- C7: `send_error` and `send_result` render their single field-map as one
field group block with one rendered field per pair and no 10-item cap (all
pairs appear). -/
theorem C7_error_result_no_cap (m : TrainingManager) (id : String)
    (opt : List (String × String)) (rb : Bool) :
    ((send_error m id (some opt) rb).2.2 =
        [ApiCall.post (lifecycle_call m id s!"{id}でエラーが発生しました"
          (error_blocks id (some opt)) (some rb) (some ":warning:"))] ∧
      (lifecycle_call m id s!"{id}でエラーが発生しました"
          (error_blocks id (some opt)) (some rb) (some ":warning:")).blocks =
        some [_get_header_block s!"エラーが発生しました --- {id}", _get_divider_block,
          _get_body_block (opt.map render_error_field)] ∧
      (opt.map render_error_field).length = opt.length) ∧
    ((send_result m id opt).2.2 =
        [ApiCall.post (lifecycle_call m id s!"{id}の学習が終了しました"
          (result_blocks id opt) none none)] ∧
      (lifecycle_call m id s!"{id}の学習が終了しました"
          (result_blocks id opt) none none).blocks =
        some [_get_header_block s!"学習終了 --- {id}", _get_divider_block,
          _get_body_block (opt.map render_result_field)] ∧
      (opt.map render_result_field).length = opt.length) := by
  constructor
  · refine ⟨?_, ?_, List.length_map opt render_error_field⟩
    · rw [send_error_eq]
      exact lifecycleSend_trace m id _ _ (some rb) (some ":warning:")
    · show some (_compose_blocks (error_blocks id (some opt))) = _
      rw [error_blocks, compose_blocks_map_some]
      simp [renderFieldsAll_eq]
  · refine ⟨?_, ?_, List.length_map opt render_result_field⟩
    · rw [send_result_eq]
      exact lifecycleSend_trace m id _ _ none none
    · show some (_compose_blocks (result_blocks id opt)) = _
      rw [result_blocks, compose_blocks_map_some]
      simp [renderFieldsAll_eq]

/-- C9: the body block list is the section blocks of the groups with exactly
one divider interleaved between consecutive pairs — none before the first or
after the last — hence `2 * n - 1` blocks for `n` groups. -/
theorem C9_divider_between_groups (gs : List (List BodyField)) :
    _get_body_blocks gs = List.intersperse Block.divider (gs.map Block.section) ∧
    (_get_body_blocks gs).length = 2 * gs.length - 1 := by
  refine ⟨getBodyBlocks_eq_intersperse gs, ?_⟩
  rw [getBodyBlocks_eq_intersperse gs, length_intersperse, List.length_map]

/-- C10: `get_ts` is a pure read, and `send_plain_message`, `send_rich_block`
and `send_file` return the instance state — ts store and channel id included —
exactly as it was, whether the transport call succeeds or fails. -/
theorem C10_non_lifecycle_frame (m : TrainingManager) (id msg mt : String)
    (blocks : List (Option Block)) (ts : Option String) (rb : Option Bool)
    (ie : Option String) (fs : FileSystem) (path : PyValue)
    (title text fts : Option String) :
    get_ts m id = dictGet m.ts_holder id ∧
    (send_plain_message m msg).2.1 = m ∧
    (send_rich_block m mt blocks ts rb ie).2.1 = m ∧
    (send_file fs m path title text fts).map (fun r => r.2.1) =
      (send_file fs m path title text fts).map (fun _ => m) := by
  refine ⟨rfl, ?_, ?_, ?_⟩
  · unfold send_plain_message
    cases m.client.chat_postMessage (plain_call m msg) <;> rfl
  · unfold send_rich_block
    cases m.client.chat_postMessage (rich_call m mt blocks ts rb ie) <;> rfl
  · unfold send_file
    cases path with
    | other t => rfl
    | str p =>
      by_cases hp : fs.is_file p
      · simp only [hp, if_pos]
        cases m.client.files_upload (upload_call m p title text fts) <;> rfl
      · simp only [hp, if_neg]
        rfl
    | path p =>
      by_cases hp : fs.is_file p
      · simp only [hp, if_pos]
        cases m.client.files_upload (upload_call m p title text fts) <;> rfl
      · simp only [hp, if_neg]
        rfl

/-- A transport that rejects the open-direct-channel request. -/
def clientReject : WebClient :=
  WebClient.mk (fun _ => Except.error "user_not_found") (fun _ => Except.ok "123.456")
    (fun _ => Except.ok "123.456")

/-- C8: if the transport rejects the open-direct-channel request, construction
raises the channel-resolution error (the `ValueError` of `_get_channel_id`)
and produces no instance; on success the resolved channel id is cached in the
instance and every subsequent send passes exactly that cached id to the
transport and leaves it unchanged. -/
theorem C8_construction_channel_resolution (client : WebClient) (user_id : String) :
    (∀ e, client.conversations_open user_id = Except.error e →
       TrainingManager.init client user_id =
         Except.error (PyError.valueError
           "Cannot find channel name. Make sure `user_id` is valid")) ∧
    (∀ ch, client.conversations_open user_id = Except.ok ch →
       TrainingManager.init client user_id =
         Except.ok (TrainingManager.mk client user_id ch [])) ∧
    (∀ (m : TrainingManager) (msg mt id : String) (blocks : List (Option Block))
       (ts : Option String) (rb : Option Bool) (ie : Option String)
       (k : Lifecycle) (optionals : Option (List (List (String × String))))
       (optional : List (String × String)) (rb2 : Bool),
       (send_plain_message m msg).2.2.map callChannel = [m.channel_id] ∧
       (send_rich_block m mt blocks ts rb ie).2.2.map callChannel = [m.channel_id] ∧
       (runLifecycle k m id optionals optional rb2).2.2.map callChannel =
         [m.channel_id] ∧
       (runLifecycle k m id optionals optional rb2).2.1.channel_id = m.channel_id) := by
  refine ⟨?_, ?_, ?_⟩
  · intro e h
    unfold TrainingManager.init _get_channel_id
    rw [h]
  · intro ch h
    unfold TrainingManager.init _get_channel_id
    rw [h]
  · intro m msg mt id blocks ts rb ie k optionals optional rb2
    obtain ⟨mt2, blocks2, rb3, ie2, heq⟩ := runLifecycle_eq k m id optionals optional rb2
    refine ⟨?_, ?_, ?_, ?_⟩
    · unfold send_plain_message
      cases m.client.chat_postMessage (plain_call m msg) <;> rfl
    · rw [send_rich_block_trace]
      rfl
    · rw [heq, lifecycleSend_trace]
      rfl
    · rw [heq]
      cases hc : m.client.chat_postMessage (lifecycle_call m id mt2 blocks2 rb3 ie2)
      · rw [lifecycleSend_of_error m id mt2 blocks2 rb3 ie2 _ hc]
      · rw [lifecycleSend_of_ok m id mt2 blocks2 rb3 ie2 _ hc]
        cases hget : dictGet m.ts_holder id <;> simp [hget]

/-- C8 witness: construction over `clientReject` raises the resolution error;
construction over `clientOk` caches `"CH00"`, which every send then passes to
the transport. -/
theorem C8_construction_channel_resolution_witness :
    (TrainingManager.init clientReject "UBAD" =
       Except.error (PyError.valueError
         "Cannot find channel name. Make sure `user_id` is valid")) ∧
    (TrainingManager.init clientOk "U001" =
       Except.ok (TrainingManager.mk clientOk "U001" "CH00" [])) ∧
    ((send_plain_message mgrOk "hello").2.2.map callChannel = [mgrOk.channel_id] ∧
     (send_rich_block mgrOk "hi" [] none none none).2.2.map callChannel =
       [mgrOk.channel_id] ∧
     (runLifecycle Lifecycle.result mgrOk "job" none [] true).2.2.map callChannel =
       [mgrOk.channel_id] ∧
     (runLifecycle Lifecycle.result mgrOk "job" none [] true).2.1.channel_id =
       mgrOk.channel_id) :=
  ⟨(C8_construction_channel_resolution clientReject "UBAD").1 "user_not_found" rfl,
   (C8_construction_channel_resolution clientOk "U001").2.1 "CH00" rfl,
   (C8_construction_channel_resolution clientOk "U001").2.2 mgrOk "hello" "hi" "job"
     [] none none none Lifecycle.result none [] true⟩

/-- C4 counterexample: over a transport whose post returns ts `"123.456"`,
`send_training_start` succeeds but returns `(true, "")`, not
`(true, "123.456")` — so "on success the returned SendResult is (true, ts)"
is false for the lifecycle sends. -/
theorem C4_counterexample_lifecycle_success_payload :
    (send_training_start mgrOk "job" none).1 = (true, "") ∧
    (send_training_start mgrOk "job" none).2.2.map (transportResult mgrOk.client) =
      [Except.ok "123.456"] ∧
    ("" : String) ≠ "123.456" :=
  ⟨rfl, rfl, by decide⟩

/-- C4 (amended): the plain/rich/file sends return `(true, ts)` on transport
success and `(false, errorCode)` on transport failure; the four lifecycle
sends return `(false, errorCode)` on failure but `(true, "")` on success —
the ts goes into the thread store, not into the returned payload. -/
theorem C4_send_result_shape (m : TrainingManager) (msg mt : String)
    (blocks : List (Option Block)) (ts : Option String) (rb : Option Bool)
    (ie : Option String) (fs : FileSystem) (p : String)
    (title text fts : Option String) (k : Lifecycle) (id : String)
    (optionals : Option (List (List (String × String))))
    (optional : List (String × String)) (rb2 : Bool) :
    (∀ t, m.client.chat_postMessage (plain_call m msg) = Except.ok t →
       (send_plain_message m msg).1 = (true, t)) ∧
    (∀ e, m.client.chat_postMessage (plain_call m msg) = Except.error e →
       (send_plain_message m msg).1 = (false, e)) ∧
    (∀ t, m.client.chat_postMessage (rich_call m mt blocks ts rb ie) = Except.ok t →
       (send_rich_block m mt blocks ts rb ie).1 = (true, t)) ∧
    (∀ e, m.client.chat_postMessage (rich_call m mt blocks ts rb ie) = Except.error e →
       (send_rich_block m mt blocks ts rb ie).1 = (false, e)) ∧
    (∀ t, fs.is_file p = true →
       m.client.files_upload (upload_call m p title text fts) = Except.ok t →
       (send_file fs m (PyValue.str p) title text fts).map (fun r => r.1) =
         Except.ok (true, t)) ∧
    (∀ e, fs.is_file p = true →
       m.client.files_upload (upload_call m p title text fts) = Except.error e →
       (send_file fs m (PyValue.str p) title text fts).map (fun r => r.1) =
         Except.ok (false, e)) ∧
    ((runLifecycle k m id optionals optional rb2).1.1 = true →
       (runLifecycle k m id optionals optional rb2).1 = (true, "")) ∧
    ((runLifecycle k m id optionals optional rb2).1.1 = false →
       ∃ c, (runLifecycle k m id optionals optional rb2).2.2 = [ApiCall.post c] ∧
         m.client.chat_postMessage c =
           Except.error (runLifecycle k m id optionals optional rb2).1.2) := by
  obtain ⟨mt2, blocks2, rb3, ie2, heq⟩ := runLifecycle_eq k m id optionals optional rb2
  refine ⟨?_, ?_, ?_, ?_, ?_, ?_, ?_, ?_⟩
  · intro t h
    unfold send_plain_message
    rw [h]
  · intro e h
    unfold send_plain_message
    rw [h]
  · intro t h
    rw [send_rich_block_ok m mt blocks ts rb ie t h]
  · intro e h
    rw [send_rich_block_error m mt blocks ts rb ie e h]
  · intro t hf h
    unfold send_file
    simp only [hf, if_pos]
    rw [h]
    rfl
  · intro e hf h
    unfold send_file
    simp only [hf, if_pos]
    rw [h]
    rfl
  · intro hok
    rw [heq] at hok ⊢
    cases hc : m.client.chat_postMessage (lifecycle_call m id mt2 blocks2 rb3 ie2)
    · rw [lifecycleSend_of_error m id mt2 blocks2 rb3 ie2 _ hc] at hok
      simp at hok
    · rw [lifecycleSend_of_ok m id mt2 blocks2 rb3 ie2 _ hc]
  · intro hfail
    rw [heq] at hfail ⊢
    obtain ⟨_, h2⟩ := lifecycleSend_failure_frame m id mt2 blocks2 rb3 ie2 hfail
    exact ⟨_, lifecycleSend_trace m id mt2 blocks2 rb3 ie2, h2⟩

/-- C4 witness: concrete transports exercising each success/failure shape. -/
theorem C4_send_result_shape_witness :
    (send_plain_message mgrOk "hello").1 = (true, "123.456") ∧
    (send_plain_message mgrFail "hello").1 = (false, "channel_not_found") ∧
    (send_rich_block mgrOk "hi" [] none none none).1 = (true, "123.456") ∧
    (send_file fsModel mgrOk (PyValue.str "/tmp/model.pt") none none none).map
      (fun r => r.1) = Except.ok (true, "123.456") ∧
    (runLifecycle Lifecycle.result mgrOk "job" none [] true).1 = (true, "") ∧
    (∃ c, (runLifecycle Lifecycle.result mgrFail "job" none [] true).2.2 =
        [ApiCall.post c] ∧
      mgrFail.client.chat_postMessage c =
        Except.error (runLifecycle Lifecycle.result mgrFail "job" none [] true).1.2) :=
  ⟨(C4_send_result_shape mgrOk "hello" "hi" [] none none none fsModel "/tmp/model.pt"
      none none none Lifecycle.result "job" none [] true).1 "123.456" rfl,
   (C4_send_result_shape mgrFail "hello" "hi" [] none none none fsModel "/tmp/model.pt"
      none none none Lifecycle.result "job" none [] true).2.1 "channel_not_found" rfl,
   (C4_send_result_shape mgrOk "hello" "hi" [] none none none fsModel "/tmp/model.pt"
      none none none Lifecycle.result "job" none [] true).2.2.1 "123.456" rfl,
   (C4_send_result_shape mgrOk "hello" "hi" [] none none none fsModel "/tmp/model.pt"
      none none none Lifecycle.result "job" none [] true).2.2.2.2.1 "123.456"
      (by decide) rfl,
   (C4_send_result_shape mgrOk "hello" "hi" [] none none none fsModel "/tmp/model.pt"
      none none none Lifecycle.result "job" none [] true).2.2.2.2.2.2.1 (by decide),
   (C4_send_result_shape mgrFail "hello" "hi" [] none none none fsModel "/tmp/model.pt"
      none none none Lifecycle.result "job" none [] true).2.2.2.2.2.2.2 (by decide)⟩

/-- C5 counterexample: `send_file` raises two distinct error kinds, not one —
an unsupported argument type raises `TypeError` while a non-existent regular
file raises `ValueError` — so "one single error kind for both cases" is false. -/
theorem C5_counterexample_two_error_kinds :
    send_file fsNone mgrOk (PyValue.other "int") none none none =
      Except.error (PyError.typeError
        "`path` expected `str` or `pathlib.Path` but got `int`") ∧
    send_file fsNone mgrOk (PyValue.str "/no/such/file") none none none =
      Except.error (PyError.valueError "Specified `path` is not valid file") ∧
    PyError.typeError "`path` expected `str` or `pathlib.Path` but got `int`" ≠
      PyError.valueError "Specified `path` is not valid file" :=
  ⟨rfl, rfl, by decide⟩

/-- C5 (amended): a `path` of unsupported type raises `TypeError` and a path
not denoting an existing regular file raises `ValueError` — two distinct
error kinds — and in both cases no transport upload is made (the raise
precedes the upload); otherwise the file is uploaded to the resolved channel. -/
theorem C5_invalid_path_raises (fs : FileSystem) (m : TrainingManager)
    (title text ts : Option String) :
    (∀ t, send_file fs m (PyValue.other t) title text ts =
       Except.error (PyError.typeError
         s!"`path` expected `str` or `pathlib.Path` but got `{t}`")) ∧
    (∀ p, fs.is_file p = false →
       send_file fs m (PyValue.str p) title text ts =
         Except.error (PyError.valueError "Specified `path` is not valid file") ∧
       send_file fs m (PyValue.path p) title text ts =
         Except.error (PyError.valueError "Specified `path` is not valid file")) ∧
    (∀ p, fs.is_file p = true →
       (send_file fs m (PyValue.str p) title text ts).map (fun r => r.2.2) =
         Except.ok [ApiCall.upload (upload_call m p title text ts)] ∧
       (send_file fs m (PyValue.path p) title text ts).map (fun r => r.2.2) =
         Except.ok [ApiCall.upload (upload_call m p title text ts)] ∧
       (upload_call m p title text ts).channels = m.channel_id) := by
  refine ⟨fun t => rfl, ?_, ?_⟩
  · intro p hp
    constructor
    · unfold send_file
      simp [hp]
    · unfold send_file
      simp [hp]
  · intro p hp
    refine ⟨?_, ?_, rfl⟩
    · unfold send_file
      simp only [hp, if_pos]
      cases m.client.files_upload (upload_call m p title text ts) <;> rfl
    · unfold send_file
      simp only [hp, if_pos]
      cases m.client.files_upload (upload_call m p title text ts) <;> rfl

/-- C5 witness: on a filesystem where only `/tmp/model.pt` exists, a missing
file raises the `ValueError` and the existing file is uploaded to the cached
channel. -/
theorem C5_invalid_path_raises_witness :
    (send_file fsModel mgrOk (PyValue.other "int") none none none =
       Except.error (PyError.typeError
         "`path` expected `str` or `pathlib.Path` but got `int`")) ∧
    (send_file fsModel mgrOk (PyValue.str "/no/such/file") none none none =
       Except.error (PyError.valueError "Specified `path` is not valid file") ∧
     send_file fsModel mgrOk (PyValue.path "/no/such/file") none none none =
       Except.error (PyError.valueError "Specified `path` is not valid file")) ∧
    ((send_file fsModel mgrOk (PyValue.str "/tmp/model.pt") none none none).map
        (fun r => r.2.2) =
      Except.ok [ApiCall.upload (upload_call mgrOk "/tmp/model.pt" none none none)] ∧
     (send_file fsModel mgrOk (PyValue.path "/tmp/model.pt") none none none).map
        (fun r => r.2.2) =
      Except.ok [ApiCall.upload (upload_call mgrOk "/tmp/model.pt" none none none)] ∧
     (upload_call mgrOk "/tmp/model.pt" none none none).channels = mgrOk.channel_id) :=
  ⟨(C5_invalid_path_raises fsModel mgrOk none none none).1 "int",
   (C5_invalid_path_raises fsModel mgrOk none none none).2.1 "/no/such/file" (by decide),
   (C5_invalid_path_raises fsModel mgrOk none none none).2.2 "/tmp/model.pt" (by decide)⟩
